import Mathlib

/-!
Verification of the GP-Presets-Converter core against its specification.

Shallow embedding conventions:
* Python `bytes` and `str` values are both modelled as `List Nat` (a string is
  represented by its byte sequence; UTF-8 encode/decode is the identity on this
  representation, and the latin-1 fallback in the source never loses bytes).
* Python dictionaries are modelled as association lists in insertion order;
  the source never creates duplicate keys.
* Python numeric values are modelled as integers (`Int`); the parameter-range
  and clamping logic in the source is integer-valued.
* Fallible operations return `Except` / `Option` instead of raising.
-/

/-- Byte list of an ASCII Lean string literal (all source literals are ASCII). -/
def ascii (s : String) : List Nat := s.data.map Char.toNat

/-- The whitespace code points below U+0100 removed by Python `str.strip()`:
space, \t, \n, \v, \f, \r, the separators U+001C-U+001F, and U+0085/U+00A0
(the last two single-byte only under the latin-1 fallback decoding; whitespace
code points above U+00FF have multi-byte encodings and do not occur in the
checked properties). -/
def isSpaceByte (b : Nat) : Bool :=
  b = 32 || b = 9 || b = 10 || b = 11 || b = 12 || b = 13 ||
  b = 28 || b = 29 || b = 30 || b = 31 || b = 133 || b = 160

/-- Model of Python `str.strip()` on the byte representation. -/
def pyStrip (s : List Nat) : List Nat :=
  ((s.dropWhile isSpaceByte).reverse.dropWhile isSpaceByte).reverse

/-- Model of a Python value as stored in preset parameter dictionaries. -/
inductive Val where
  | vnum (n : Int)
  | vbool (b : Bool)
  | vstr (s : List Nat)
  | vnone
  | vlist (elems : List Val)
  | vdict (entries : List (List Nat × Val))
deriving Repr

/-- Association-list lookup, modelling `dict.get(key)` / `dict[key]`. -/
def dictGet {β : Type} : List (List Nat × β) → List Nat → Option β
  | [], _ => none
  | (k, v) :: rest, key => if k = key then some v else dictGet rest key

/-- Membership test, modelling Python `key in dict`. -/
def hasKey {β : Type} : List (List Nat × β) → List Nat → Bool
  | [], _ => false
  | (k, _) :: rest, key => if k = key then true else hasKey rest key

/-- Errors raised by the core (IndexError in `read_bytes`, ValueError on empty input). -/
inductive PErr where
  | outOfBounds
  | emptyInput
deriving Repr, DecidableEq

/-- `BinaryReader` state from `utils/binary_parser.py`: the buffer and a cursor offset. -/
structure BinaryReader where
  data : List Nat
  offset : Nat
deriving Repr, DecidableEq

/-- `BinaryReader.read_bytes`: bounds-checked slice `data[offset : offset+count]`,
advancing the cursor; raises IndexError when fewer than `count` bytes remain. -/
def BinaryReader.readBytes (r : BinaryReader) (count : Nat) :
    Except PErr (List Nat × BinaryReader) :=
  if r.data.length < r.offset + count then
    .error .outOfBounds
  else
    .ok ((r.data.drop r.offset).take count, ⟨r.data, r.offset + count⟩)

/-- `BinaryReader.read_string`: read `len` bytes, truncate at the first null byte,
decode (identity on the byte representation). -/
def BinaryReader.readString (r : BinaryReader) (len : Nat) :
    Except PErr (List Nat × BinaryReader) :=
  match r.readBytes len with
  | .error e => .error e
  | .ok (bs, r2) => .ok (bs.takeWhile (fun b => b ≠ 0), r2)

/-- `BinaryReader.skip`: advances the offset with no bounds check (source line 184). -/
def BinaryReader.skip (r : BinaryReader) (count : Nat) : BinaryReader :=
  ⟨r.data, r.offset + count⟩

/-- `BinaryReader.seek`: sets the offset with no bounds check (source line 193). -/
def BinaryReader.seek (r : BinaryReader) (pos : Nat) : BinaryReader :=
  ⟨r.data, pos⟩

/-- `BinaryWriter.write_string`: UTF-8 encode (identity here), truncate to `len`
bytes if over, pad with the padding byte (default 0) up to `len`. -/
def writeFixedString (s : List Nat) (len : Nat) : List Nat :=
  let e := s.take len
  e ++ List.replicate (len - e.length) 0

/-- `PresetData` from `models/common.py`: generic parsed-preset container. -/
structure PresetData where
  format : List Nat
  version : List Nat
  name : List Nat
  parameters : List (List Nat × Val)
  rawData : Option (List Nat)
deriving Repr

/-- Construction of a `PresetData`, including `__post_init__`: a falsy (empty)
name is replaced by the sentinel "Unnamed Preset". -/
def mkPresetData (format version name : List Nat)
    (parameters : List (List Nat × Val)) (rawData : Option (List Nat)) : PresetData :=
  { format := format, version := version,
    name := if name = [] then ascii "Unnamed Preset" else name,
    parameters := parameters, rawData := rawData }

/-- `GP5Preset` from `models/gp5_preset.py`. -/
structure GP5Preset where
  name : List Nat
  version : List Nat
  parameters : List (List Nat × Val)
deriving Repr

/-- Default parameter dictionary installed by `GP5Preset.__post_init__`. -/
def gp5DefaultParams : List (List Nat × Val) :=
  [(ascii "input_gain", .vnum 50), (ascii "output_level", .vnum 50),
   (ascii "effects_chain", .vlist []), (ascii "noise_gate_enabled", .vbool false),
   (ascii "noise_gate_threshold", .vnum 30)]

/-- Construction of a `GP5Preset`, including `__post_init__`: an empty (falsy)
parameter dictionary is replaced by the defaults. -/
def mkGP5 (name version : List Nat) (parameters : List (List Nat × Val)) : GP5Preset :=
  { name := name, version := version,
    parameters := if parameters.isEmpty then gp5DefaultParams else parameters }

/-- `GP50Preset` from `models/gp50_preset.py`. -/
structure GP50Preset where
  name : List Nat
  version : List Nat
  parameters : List (List Nat × Val)
deriving Repr

/-- Default parameter dictionary installed by `GP50Preset.__post_init__`. -/
def gp50DefaultParams : List (List Nat × Val) :=
  [(ascii "input_gain", .vnum 50), (ascii "output_level", .vnum 50),
   (ascii "effects_chain", .vlist []), (ascii "noise_gate_enabled", .vbool false),
   (ascii "noise_gate_threshold", .vnum 30),
   (ascii "expression_pedal_assignment", .vnone)]

/-- Construction of a `GP50Preset`, including `__post_init__`. -/
def mkGP50 (name version : List Nat) (parameters : List (List Nat × Val)) : GP50Preset :=
  { name := name, version := version,
    parameters := if parameters.isEmpty then gp50DefaultParams else parameters }

/-- `PresetParser.GP5_SIGNATURE = b"GP5\x00"`. -/
def gp5Signature : List Nat := ascii "GP5" ++ [0]

/-- `PresetParser.GP50_SIGNATURE = b"GP50"`. -/
def gp50Signature : List Nat := ascii "GP50"

/-- Placeholder parameter dictionary built by `_parse_gp5` / `_parse_gp50`. -/
def placeholderParams : List (List Nat × Val) :=
  [(ascii "input_gain", .vnum 0), (ascii "output_level", .vnum 0),
   (ascii "effects_chain", .vlist [])]

/-- Model of `bytes.startswith(sig)`. -/
def bytesStartWith (data sig : List Nat) : Bool := data.take sig.length = sig

/-- `PresetParser._parse_gp5`: skip the 4-byte signature, read a 16-byte version
and 32-byte name (null-truncated, stripped), return a `PresetData` with the
placeholder parameter block and the full buffer as raw data. -/
def parseGp5 (data : List Nat) : Except PErr PresetData :=
  let r := BinaryReader.skip ⟨data, 0⟩ 4
  match r.readString 16 with
  | .error e => .error e
  | .ok (version, r2) =>
    match r2.readString 32 with
    | .error e => .error e
    | .ok (name, _) =>
      .ok (mkPresetData (ascii "GP5") (pyStrip version) (pyStrip name)
        placeholderParams (some data))

/-- `PresetParser._parse_gp50`: identical layout with the GP50 format tag. -/
def parseGp50 (data : List Nat) : Except PErr PresetData :=
  let r := BinaryReader.skip ⟨data, 0⟩ 4
  match r.readString 16 with
  | .error e => .error e
  | .ok (version, r2) =>
    match r2.readString 32 with
    | .error e => .error e
    | .ok (name, _) =>
      .ok (mkPresetData (ascii "GP50") (pyStrip version) (pyStrip name)
        placeholderParams (some data))

/-- `PresetParser.parse_file` on an in-memory buffer: `_detect_format` checks the
GP5 then GP50 signature; with no match a non-empty buffer is classified UNKNOWN
with its raw payload preserved, and an empty buffer raises `ValueError`. -/
def parseData (data : List Nat) : Except PErr PresetData :=
  if bytesStartWith data gp5Signature then parseGp5 data
  else if bytesStartWith data gp50Signature then parseGp50 data
  else if data.length > 0 then
    .ok (mkPresetData (ascii "UNKNOWN") [] (ascii "Unknown Preset") [] (some data))
  else .error .emptyInput

/-- `PresetWriter.write_gp50` (serialization part): 4-byte signature "GP50",
version null-padded/truncated to 16 bytes, name null-padded/truncated to 32
bytes; the parameter loop writes nothing (placeholder `pass` in the source). -/
def writeGp50 (p : GP50Preset) : List Nat :=
  gp50Signature ++ writeFixedString p.version 16 ++ writeFixedString p.name 32

/-- Null-byte count of a section, `section.count(0)`. -/
def countNull (s : List Nat) : Nat := s.count 0

/-- `BinaryAnalyzer._sections_differ`: empty sections never differ; otherwise
compare the null-byte fractions against a 0.2 threshold (floats modelled as
exact rationals). -/
def sectionsDiffer (s1 s2 : List Nat) : Bool :=
  if s1.isEmpty || s2.isEmpty then false
  else decide ((1 : ℚ) / 5 < |(countNull s1 : ℚ) / s1.length - (countNull s2 : ℚ) / s2.length|)

/-- The candidate header sizes tried by `_detect_structure`. -/
def commonHeaderSizes : List Nat := [64, 128, 256, 512]

/-- One loop iteration of the header-size guess: the candidate qualifies when the
buffer is longer than the candidate, the 64-byte body window after it is
non-empty (buffer longer than candidate+64), and the two sections differ. -/
def headerCandidateQualifies (data : List Nat) (size : Nat) : Bool :=
  data.length > size &&
    (if data.length > size + 64 then
      sectionsDiffer (data.take size) ((data.drop size).take 64)
    else false)

/-- `_detect_structure`'s header-size loop: first qualifying candidate, else 0. -/
def findHeaderGuess (data : List Nat) : List Nat → Nat
  | [] => 0
  | size :: rest =>
    if headerCandidateQualifies data size then size else findHeaderGuess data rest

/-- The `header_size_guess` field computed by `BinaryAnalyzer._detect_structure`. -/
def headerGuess (data : List Nat) : Nat := findHeaderGuess data commonHeaderSizes

/-- Null-byte percentage of a section, as the spec phrases the heuristic. -/
def nullPercent (s : List Nat) : ℚ := (countNull s : ℚ) / s.length * 100

/-- The spec's wording of when a candidate header size is chosen: the buffer is
longer than candidate+64 and the null-byte percentages of the first `candidate`
bytes and of the following 64 bytes differ by more than 20 points. -/
def specHeaderQualifies (data : List Nat) (size : Nat) : Bool :=
  decide (data.length > size + 64 ∧
    20 < |nullPercent (data.take size) - nullPercent ((data.drop size).take 64)|)

/-- `BinaryAnalyzer.compare_files` byte-difference count: number of offsets below
the shorter length where the buffers disagree. -/
def byteDifferences (a b : List Nat) : Nat :=
  ((a.zip b).filter (fun p => p.1 ≠ p.2)).length

/-- `BinaryAnalyzer.compare_files` similarity percentage, with the explicit
zero-for-both-empty convention. -/
def similarityPercentage (a b : List Nat) : ℚ :=
  if max a.length b.length > 0 then
    (1 - (byteDifferences a b : ℚ) / max a.length b.length) * 100
  else 0

/-- Decimal digits of a natural number, as ASCII bytes. -/
def natAscii (n : Nat) : List Nat := (Nat.toDigits 10 n).map Char.toNat

/-- Model of Python `str(i)` for an integer. -/
def intAscii (n : Int) : List Nat :=
  if n < 0 then 45 :: natAscii n.natAbs else natAscii n.natAbs

mutual
/-- Model of Python `repr(value)` (strings quoted; escaping inside string
literals is not modelled, no checked property renders such a string). -/
def pyRepr : Val → List Nat
  | .vnum n => intAscii n
  | .vbool b => if b then ascii "True" else ascii "False"
  | .vstr s => 39 :: s ++ [39]
  | .vnone => ascii "None"
  | .vlist xs => 91 :: pyReprJoin xs ++ [93]
  | .vdict entries => 123 :: pyReprEntries entries ++ [125]

/-- Comma-joined reprs of list elements. -/
def pyReprJoin : List Val → List Nat
  | [] => []
  | [x] => pyRepr x
  | x :: rest => pyRepr x ++ ascii ", " ++ pyReprJoin rest

/-- Comma-joined reprs of dict entries. -/
def pyReprEntries : List (List Nat × Val) → List Nat
  | [] => []
  | [(k, v)] => 39 :: k ++ [39] ++ ascii ": " ++ pyRepr v
  | (k, v) :: rest => 39 :: k ++ [39] ++ ascii ": " ++ pyRepr v ++ ascii ", " ++ pyReprEntries rest
end

/-- Model of Python `str(value)` as used in f-strings: a string renders as
itself, everything else as its repr. -/
def pyStrOf : Val → List Nat
  | .vstr s => s
  | v => pyRepr v

/-- The converter's `parameter_mapping` table (GP5 key, GP50 key). -/
def parameterMapping : List (List Nat × List Nat) :=
  [(ascii "input_gain", ascii "input_gain"),
   (ascii "output_level", ascii "output_level")]

/-- The converter's `effect_mapping` table (GP5 effect type, GP50 effect type). -/
def effectMapping : List (List Nat × List Nat) :=
  [(ascii "overdrive", ascii "overdrive"), (ascii "distortion", ascii "distortion"),
   (ascii "delay", ascii "delay"), (ascii "reverb", ascii "reverb"),
   (ascii "chorus", ascii "chorus")]

/-- The converter's `parameter_ranges` table. -/
def parameterRangesConv : List (List Nat × (Int × Int)) :=
  [(ascii "input_gain", (0, 100)), (ascii "output_level", (0, 100))]

/-- `CoreConverter._validate_parameter`: clamp numeric values of ranged
parameters with `max(min_val, min(max_val, value))`; other values pass through.
Python `min`/`max` on a bool and an int return the bool unless the int wins, so
`True` clamps to `True` and `False` clamps to the int bound `0`. -/
def validateParameter (paramName : List Nat) (v : Val) : Val :=
  match dictGet parameterRangesConv paramName with
  | none => v
  | some (lo, hi) =>
    match v with
    | .vnum n => .vnum (max lo (min hi n))
    | .vbool b => if b then .vbool true else .vnum lo
    | _ => v

/-- Model of Python iteration `for effect in value` over a parameter value:
lists iterate their elements, strings their one-character substrings, dicts
their keys; other values raise TypeError (`none`). -/
def iterElems : Val → Option (List Val)
  | .vlist xs => some xs
  | .vstr s => some (s.map (fun c => .vstr [c]))
  | .vdict entries => some (entries.map (fun kv => .vstr kv.1))
  | _ => none

/-- The chain iterated by `convert`/`check_compatibility`:
`parameters.get("effects_chain", [])`, then iterated. -/
def chainItems (params : List (List Nat × Val)) : Option (List Val) :=
  match dictGet params (ascii "effects_chain") with
  | none => some []
  | some v => iterElems v

/-- Python hashability of a value: lists and dicts are unhashable, so using
them as the needle of a dict/set membership test raises TypeError. -/
def hashableVal : Val → Bool
  | .vlist _ => false
  | .vdict _ => false
  | _ => true

/-- `effect.get("type", "")` for a dict chain item. -/
def effectTypeVal (entries : List (List Nat × Val)) : Val :=
  (dictGet entries (ascii "type")).getD (.vstr [])

/-- Whether `convert` keeps a chain item: it must be a dict and its
`get("type", "")` value must be a key of the effect-compatibility map; a
list- or dict-valued type is unhashable, so the membership test itself raises
TypeError (`none`), as at converter.py line 83. -/
def keepEffect? : Val → Option Bool
  | .vdict entries =>
    match effectTypeVal entries with
    | .vstr s => some (hasKey effectMapping s)
    | .vnum _ => some false
    | .vbool _ => some false
    | .vnone => some false
    | .vlist _ => none
    | .vdict _ => none
  | _ => some false

/-- The effect-chain filtering loop of `convert`: drop items not kept,
aborting with the TypeError of the first unhashable type value. -/
def filterEffects : List Val → Option (List Val)
  | [] => some []
  | item :: rest =>
    match keepEffect? item with
    | none => none
    | some b =>
      match filterEffects rest with
      | none => none
      | some tl => some (if b then item :: tl else tl)

/-- The renamed-parameter copy loop of `CoreConverter.convert`: for each entry
of the rename map whose source key is present, copy the (clamped) value under
the target key, in map order. -/
def convertMappedParams (p : GP5Preset) : List (List Nat × Val) :=
  parameterMapping.foldr
    (fun kv acc =>
      match dictGet p.parameters kv.1 with
      | some v => (kv.2, validateParameter kv.2 v) :: acc
      | none => acc) []

/-- `CoreConverter.convert`: copy renamed parameters (clamped), filter the
effect chain by the compatibility map, and build a GP50 preset with the source
name and version "1.0"; `none` models the TypeError of iterating a
non-iterable effects-chain value, or of an unhashable effect-type value in the
membership test. -/
def convert (p : GP5Preset) : Option GP50Preset :=
  match chainItems p.parameters with
  | none => none
  | some items =>
    match filterEffects items with
    | none => none
    | some kept =>
      some (mkGP50 p.name (ascii "1.0")
        (convertMappedParams p ++ [(ascii "effects_chain", .vlist kept)]))

/-- Python `isinstance(item, dict)` for a chain item. -/
def isDictVal : Val → Bool
  | .vdict _ => true
  | _ => false

/-- The text of one `check_compatibility` warning. -/
def compatWarnMsg (tv : Val) : List Nat :=
  ascii "Effect " ++ [39] ++ pyStrOf tv ++ [39] ++ ascii " may not be supported in GP-50"

/-- One `check_compatibility` step on a chain item: non-dict items are skipped
(inner `none` wrapped in `some`), dict items with an unsupported hashable type
produce a warning, and a list- or dict-valued type makes the membership test
raise TypeError (outer `none`), as at converter.py line 132. -/
def compatWarning? : Val → Option (Option (List Nat))
  | .vdict entries =>
    match effectTypeVal entries with
    | .vstr s =>
      some (if hasKey effectMapping s then none else some (compatWarnMsg (.vstr s)))
    | .vnum n => some (some (compatWarnMsg (.vnum n)))
    | .vbool b => some (some (compatWarnMsg (.vbool b)))
    | .vnone => some (some (compatWarnMsg .vnone))
    | .vlist _ => none
    | .vdict _ => none
  | _ => some none

/-- Whether a chain item contributes a warning (the item is a dict and its
hashable type is not in the compatibility map). -/
def hasCompatWarning (item : Val) : Bool :=
  match compatWarning? item with
  | some (some _) => true
  | _ => false

/-- The `check_compatibility` loop: the flag starts true and is cleared
whenever a warning is appended; an unhashable type value aborts with
TypeError. -/
def checkCompatLoop : List Val → Option (Bool × List (List Nat))
  | [] => some (true, [])
  | item :: rest =>
    match compatWarning? item with
    | none => none
    | some w =>
      match checkCompatLoop rest with
      | none => none
      | some (b, ws) =>
        match w with
        | some msg => some (false, msg :: ws)
        | none => some (b, ws)

/-- `CoreConverter.check_compatibility`: scan the chain, collect one warning
per unsupported dict effect, and report compatibility. -/
def checkCompatibility (p : GP5Preset) : Option (Bool × List (List Nat)) :=
  match chainItems p.parameters with
  | none => none
  | some items => checkCompatLoop items

/-- `PresetValidator.PARAMETER_RANGES` (every entry is (0, 100)). -/
def validatorRanges : List (List Nat × (Int × Int)) :=
  [(ascii "input_gain", (0, 100)), (ascii "output_level", (0, 100)),
   (ascii "noise_gate_threshold", (0, 100)), (ascii "mix", (0, 100)),
   (ascii "level", (0, 100)), (ascii "drive", (0, 100)), (ascii "tone", (0, 100)),
   (ascii "gain", (0, 100)), (ascii "feedback", (0, 100)), (ascii "rate", (0, 100)),
   (ascii "depth", (0, 100)), (ascii "bass", (0, 100)), (ascii "mid", (0, 100)),
   (ascii "treble", (0, 100)), (ascii "presence", (0, 100)), (ascii "master", (0, 100))]

/-- `PresetValidator.VALID_EFFECT_TYPES`. -/
def validEffectTypes : List (List Nat) :=
  [ascii "overdrive", ascii "distortion", ascii "fuzz", ascii "boost",
   ascii "delay", ascii "reverb", ascii "chorus", ascii "flanger",
   ascii "phaser", ascii "tremolo", ascii "compressor", ascii "eq",
   ascii "wah", ascii "amp_sim", ascii "cabinet", ascii "noise_gate"]

/-- Python `isinstance(value, (int, float))`; bools are ints in Python. -/
def isNumericVal : Val → Bool
  | .vnum _ => true
  | .vbool _ => true
  | _ => false

/-- Numeric value of a Python int/float/bool (only called on numerics). -/
def numericOf : Val → Int
  | .vnum n => n
  | .vbool b => if b then 1 else 0
  | _ => 0

/-- Python `type(value).__name__` for our value model (`int` stands for the
numeric types). -/
def pyTypeName : Val → List Nat
  | .vnum _ => ascii "int"
  | .vbool _ => ascii "bool"
  | .vstr _ => ascii "str"
  | .vnone => ascii "NoneType"
  | .vlist _ => ascii "list"
  | .vdict _ => ascii "dict"

/-- `PresetValidator.validate_parameter_range`: unknown parameters pass;
non-numeric values fail with a type message; values outside [min, max] fail
with a range message. -/
def validateParameterRange (name : List Nat) (v : Val) : Bool × List Nat :=
  match dictGet validatorRanges name with
  | none => (true, [])
  | some (lo, hi) =>
    if !isNumericVal v then
      (false, ascii "Parameter " ++ [39] ++ name ++ [39] ++
        ascii " must be numeric, got " ++ pyTypeName v)
    else if numericOf v < lo || hi < numericOf v then
      (false, ascii "Parameter " ++ [39] ++ name ++ [39] ++ ascii " must be between " ++
        intAscii lo ++ ascii " and " ++ intAscii hi ++ ascii ", got " ++ pyStrOf v)
    else (true, [])

/-- The error message `validate_effect` returns when the `type` key is absent. -/
def msgMissingType : List Nat :=
  ascii "Effect missing required " ++ [39] ++ ascii "type" ++ [39] ++ ascii " field"

/-- The boolean-parameter error message of `validate_effect`. -/
def msgMustBeBool (param : List Nat) : List Nat :=
  ascii "Effect parameter " ++ [39] ++ param ++ [39] ++ ascii " must be boolean"

/-- The unknown-effect-type error message of `validate_effect`. -/
def msgUnknownType (tv : Val) : List Nat := ascii "Unknown effect type: " ++ pyStrOf tv

/-- The boolean-field checks of `validate_effect` over `["enabled", "bypass"]`. -/
def effectBoolErrors (effect : List (List Nat × Val)) : List (List Nat) :=
  [ascii "enabled", ascii "bypass"].filterMap (fun param =>
    match dictGet effect param with
    | some (.vbool _) => none
    | some _ => some (msgMustBeBool param)
    | none => none)

/-- The numeric-parameter scan of `validate_effect` over `effect.items()`,
skipping the `type`/`enabled`/`bypass` keys and non-numeric values. -/
def effectNumericErrors (effect : List (List Nat × Val)) : List (List Nat) :=
  effect.filterMap (fun kv =>
    if kv.1 = ascii "type" ∨ kv.1 = ascii "enabled" ∨ kv.1 = ascii "bypass" then none
    else if isNumericVal kv.2 then
      match validateParameterRange kv.1 kv.2 with
      | (true, _) => none
      | (false, msg) => some msg
    else none)

/-- `PresetValidator.validate_effect`: a missing `type` field returns
immediately with that single error; a list- or dict-valued type makes the set
membership test raise TypeError (validation.py line 121) before anything is
collected (`none`); otherwise the unknown-type, boolean-field and
numeric-range errors are all collected. -/
def validateEffect (effect : List (List Nat × Val)) : Option (Bool × List (List Nat)) :=
  match dictGet effect (ascii "type") with
  | none => some (false, [msgMissingType])
  | some tv =>
    match tv with
    | .vlist _ => none
    | .vdict _ => none
    | _ =>
      let typeErrs :=
        match tv with
        | .vstr s => if validEffectTypes.any (fun t => t = s) then [] else [msgUnknownType tv]
        | _ => [msgUnknownType tv]
      let errors := typeErrs ++ effectBoolErrors effect ++ effectNumericErrors effect
      some (errors.isEmpty, errors)

/-- Python chained comparison `0 <= value <= 100` for a parameter value:
`none` models the TypeError on non-numeric values; a `None` value is skipped by
the caller before comparing. -/
def inRange0To100 : Val → Option Bool
  | .vnum n => some (decide (0 ≤ n ∧ n ≤ 100))
  | .vbool _ => some true
  | _ => none

/-- One `get`-and-range check of `GP5Preset.validate` (`input_gain` /
`output_level`): absent or `None` values are skipped; out-of-range numeric
values produce the given message with the value rendered. -/
def gp5RangeErrors (params : List (List Nat × Val)) (key : List Nat)
    (msgPre : List Nat) : Option (List (List Nat)) :=
  match dictGet params key with
  | none => some []
  | some .vnone => some []
  | some v =>
    match inRange0To100 v with
    | none => none
    | some ok => some (if ok then [] else [msgPre ++ pyStrOf v])

/-- `GP5Preset.validate`: collect the name, input-gain, output-level and
effects-chain-shape errors in order; `none` models a TypeError from comparing a
non-numeric gain/level. -/
def gp5Validate (p : GP5Preset) : Option (Bool × List (List Nat)) :=
  let nameErrs :=
    if p.name = [] ∨ pyStrip p.name = [] then [ascii "Preset name cannot be empty"] else []
  match gp5RangeErrors p.parameters (ascii "input_gain")
      (ascii "Input gain must be 0-100, got ") with
  | none => none
  | some gainErrs =>
    match gp5RangeErrors p.parameters (ascii "output_level")
        (ascii "Output level must be 0-100, got ") with
    | none => none
    | some levelErrs =>
      let chainVal := (dictGet p.parameters (ascii "effects_chain")).getD (.vlist [])
      let chainErrs :=
        match chainVal with
        | .vlist _ => []
        | _ => [ascii "Effects chain must be a list"]
      let errors := nameErrs ++ gainErrs ++ levelErrs ++ chainErrs
      some (errors.isEmpty, errors)

/-! ## Helper lemmas -/

theorem writeFixedString_length (s : List Nat) (len : Nat) :
    (writeFixedString s len).length = len := by
  simp only [writeFixedString, List.length_append, List.length_replicate,
    List.length_take]
  omega

theorem writeFixedString_of_fits (s : List Nat) (len : Nat) (h : s.length ≤ len) :
    writeFixedString s len = s ++ List.replicate (len - s.length) 0 := by
  simp [writeFixedString, List.take_of_length_le h]

theorem takeWhile_nonzero_padded (s : List Nat) (k : Nat) (h : 0 ∉ s) :
    (s ++ List.replicate k 0).takeWhile (fun b => b ≠ 0) = s := by
  induction s with
  | nil =>
    cases k with
    | zero => rfl
    | succ m => simp [List.replicate_succ, List.takeWhile_cons]
  | cons a rest ih =>
    have ha : a ≠ 0 := fun hEq => h (hEq ▸ List.mem_cons_self a rest)
    have hrest : 0 ∉ rest := fun hm => h (List.mem_cons_of_mem a hm)
    have ih' := ih hrest
    simp only [ne_eq, decide_not] at ih' ⊢
    simp [List.takeWhile_cons, ha, ih']

theorem readString_of_padded (data pre s post : List Nat) (width : Nat)
    (hdata : data = pre ++ writeFixedString s width ++ post)
    (hfit : s.length ≤ width) (hz : 0 ∉ s) :
    BinaryReader.readString ⟨data, pre.length⟩ width =
      .ok (s, ⟨data, pre.length + width⟩) := by
  have hlen : data.length = pre.length + width + post.length := by
    subst hdata
    simp [writeFixedString_length]
    omega
  have hnot : ¬ (data.length < pre.length + width) := by omega
  have hslice : (data.drop pre.length).take width = writeFixedString s width := by
    subst hdata
    rw [List.append_assoc, List.drop_left,
      List.take_left' (writeFixedString_length s width)]
  rw [BinaryReader.readString, BinaryReader.readBytes]
  rw [if_neg hnot]
  simp only [hslice, writeFixedString_of_fits s width hfit,
    takeWhile_nonzero_padded s _ hz]

theorem pyStrip_nil : pyStrip [] = [] := rfl

/-! ## Claim C1: round-trip through the GP50 writer and parser -/

/-- The equality `parse(write(model)) == model` asserted by the round-trip
claim, read field-wise and with the parameter dictionaries compared
extensionally (Python dict equality is key-set based, not order based). -/
def roundTripEq (pd : PresetData) (q : GP50Preset) : Prop :=
  pd.format = ascii "GP50" ∧ pd.version = q.version ∧ pd.name = q.name ∧
    ∀ k, dictGet pd.parameters k = dictGet q.parameters k

/-- C1 (amended): for a GP50 model whose name and version are ASCII (so the
byte-level model of UTF-8 encode/decode and `str.strip()` coincides exactly
with the source's string operations), fit the declared widths, contain no null
byte and carry no surrounding whitespace (and whose name is non-empty),
parsing the written buffer reproduces the format tag, name and version
exactly — but the parameter block is not encoded, so the parsed model always
carries the fixed placeholder parameters and the written buffer as raw
data. -/
theorem gp50_roundtrip_header_only (p : GP50Preset)
    (_hna : ∀ b ∈ p.name, b < 128) (_hva : ∀ b ∈ p.version, b < 128)
    (hn0 : p.name ≠ []) (hnlen : p.name.length ≤ 32) (hnz : 0 ∉ p.name)
    (hns : pyStrip p.name = p.name)
    (hvlen : p.version.length ≤ 16) (hvz : 0 ∉ p.version)
    (hvs : pyStrip p.version = p.version) :
    parseData (writeGp50 p) = .ok { format := ascii "GP50", version := p.version,
                                    name := p.name, parameters := placeholderParams,
                                    rawData := some (writeGp50 p) } := by
  have htake : (writeGp50 p).take 4 = gp50Signature := by
    rw [writeGp50, List.append_assoc]
    exact List.take_left' rfl
  have hsig5 : bytesStartWith (writeGp50 p) gp5Signature = false := by
    rw [bytesStartWith, show gp5Signature.length = 4 from rfl, htake]
    decide
  have hsig50 : bytesStartWith (writeGp50 p) gp50Signature = true := by
    rw [bytesStartWith, show gp50Signature.length = 4 from rfl, htake]
    simp
  have h1 : BinaryReader.readString ⟨writeGp50 p, 0 + 4⟩ 16 =
      .ok (p.version, ⟨writeGp50 p, 0 + 4 + 16⟩) :=
    readString_of_padded (writeGp50 p) gp50Signature p.version
      (writeFixedString p.name 32) 16 rfl hvlen hvz
  have hdata2 : writeGp50 p =
      (gp50Signature ++ writeFixedString p.version 16) ++ writeFixedString p.name 32 ++ [] := by
    simp [writeGp50]
  have h2 := readString_of_padded (writeGp50 p)
    (gp50Signature ++ writeFixedString p.version 16) p.name [] 32 hdata2 hnlen hnz
  rw [show (gp50Signature ++ writeFixedString p.version 16).length = 0 + 4 + 16 by
    simp only [List.length_append, writeFixedString_length]
    rfl] at h2
  rw [parseData, hsig5, hsig50]
  simp only [Bool.false_eq_true, if_false, if_true]
  rw [parseGp50]
  simp only [BinaryReader.skip]
  rw [h1]
  simp only []
  rw [h2]
  simp [mkPresetData, hvs, hns, hn0]

/-- Witness for the amended round-trip theorem at a concrete preset. -/
theorem gp50_roundtrip_header_only_witness :
    parseData (writeGp50 (mkGP50 (ascii "Demo") (ascii "1.0")
        [(ascii "input_gain", Val.vnum 7)])) =
      .ok { format := ascii "GP50",
            version := (mkGP50 (ascii "Demo") (ascii "1.0")
              [(ascii "input_gain", Val.vnum 7)]).version,
            name := (mkGP50 (ascii "Demo") (ascii "1.0")
              [(ascii "input_gain", Val.vnum 7)]).name,
            parameters := placeholderParams,
            rawData := some (writeGp50 (mkGP50 (ascii "Demo") (ascii "1.0")
              [(ascii "input_gain", Val.vnum 7)])) } :=
  gp50_roundtrip_header_only _ (by decide) (by decide) (by decide) (by decide)
    (by decide) (by decide) (by decide) (by decide) (by decide)

/-- C1 counterexample: for the preset named "Preset A" with `input_gain = 50`
(name and version well within the declared widths, so no truncation is
involved), `parse(write(model))` is not equal to the model: the parsed
parameters are the placeholder block, not the original parameters. -/
theorem gp50_roundtrip_parameters_lost :
    ¬ ∃ pd, parseData (writeGp50 (mkGP50 (ascii "Preset A") (ascii "1.0")
        [(ascii "input_gain", Val.vnum 50)])) = .ok pd ∧
      roundTripEq pd (mkGP50 (ascii "Preset A") (ascii "1.0")
        [(ascii "input_gain", Val.vnum 50)]) := by
  rintro ⟨pd, hok, -, -, -, hparams⟩
  have hval : parseData (writeGp50 (mkGP50 (ascii "Preset A") (ascii "1.0")
      [(ascii "input_gain", Val.vnum 50)])) =
      .ok { format := ascii "GP50", version := ascii "1.0",
            name := ascii "Preset A", parameters := placeholderParams,
            rawData := some (writeGp50 (mkGP50 (ascii "Preset A") (ascii "1.0")
              [(ascii "input_gain", Val.vnum 50)])) } := rfl
  rw [hval] at hok
  have hpd := (Except.ok.inj hok).symm
  subst hpd
  have hL : dictGet placeholderParams (ascii "input_gain") = some (Val.vnum 0) := rfl
  have hR : dictGet (mkGP50 (ascii "Preset A") (ascii "1.0")
      [(ascii "input_gain", Val.vnum 50)]).parameters (ascii "input_gain") =
      some (Val.vnum 50) := rfl
  have hcontra := (hL.symm.trans (hparams (ascii "input_gain"))).trans hR
  simp at hcontra

/-! ## Claim C3: cursor bounds -/

/-- C3 (amended): `read_bytes` raises exactly when fewer than `n` bytes remain,
and a successful read returns exactly `n` bytes with the cursor advanced to
`offset + n`, still within the buffer; `skip` and `seek`, however, perform no
bounds check (see the counterexample). -/
theorem readBytes_bounds (r : BinaryReader) (n : Nat) :
    (r.data.length < r.offset + n → r.readBytes n = .error .outOfBounds) ∧
    (r.offset + n ≤ r.data.length →
      ∃ bs, r.readBytes n = .ok (bs, ⟨r.data, r.offset + n⟩) ∧ bs.length = n ∧
        r.offset + n ≤ r.data.length) := by
  constructor
  · intro h
    simp [BinaryReader.readBytes, h]
  · intro h
    refine ⟨(r.data.drop r.offset).take n, ?_, ?_, h⟩
    · simp [BinaryReader.readBytes, Nat.not_lt.mpr h]
    · simp only [List.length_take, List.length_drop]
      omega

/-- Witness for the bounds theorem at a concrete reader. -/
theorem readBytes_bounds_witness :
    BinaryReader.readBytes ⟨[10, 20, 30], 1⟩ 5 = .error .outOfBounds ∧
    ∃ bs, BinaryReader.readBytes ⟨[10, 20, 30], 1⟩ 2 = .ok (bs, ⟨[10, 20, 30], 1 + 2⟩) ∧
      bs.length = 2 ∧ 1 + 2 ≤ 3 :=
  ⟨(readBytes_bounds ⟨[10, 20, 30], 1⟩ 5).1 (by decide),
   (readBytes_bounds ⟨[10, 20, 30], 1⟩ 2).2 (by decide)⟩

/-- C3 counterexample: `skip` advances the offset past the declared buffer
length — skipping 5 bytes on an empty buffer leaves the cursor at offset 5,
outside `[0, length]`. -/
theorem skip_escapes_bounds :
    ¬ ((BinaryReader.skip ⟨[], 0⟩ 5).offset ≤ (BinaryReader.skip ⟨[], 0⟩ 5).data.length) := by
  decide

/-! ## Claim C4: empty input and unrecognized classification -/

/-- C4: parsing the empty buffer is an explicit `ValueError` (EmptyInput), and
parsing any non-empty buffer matching no registered signature succeeds with the
UNKNOWN classification and the full buffer preserved as raw payload. -/
theorem parse_unrecognized (data : List Nat) (hne : data ≠ [])
    (h5 : bytesStartWith data gp5Signature = false)
    (h50 : bytesStartWith data gp50Signature = false) :
    parseData data = .ok { format := ascii "UNKNOWN", version := [],
                           name := ascii "Unknown Preset", parameters := [],
                           rawData := some data } ∧
    parseData [] = .error .emptyInput := by
  refine ⟨?_, rfl⟩
  have hpos : data.length > 0 := List.length_pos.mpr hne
  rw [parseData, h5, h50]
  simp [hpos, mkPresetData]
  exact fun h => absurd h (by decide)

/-- Witness: the 10-byte all-`0xFF` buffer from the spec example. -/
theorem parse_unrecognized_witness :
    parseData (List.replicate 10 255) =
      .ok { format := ascii "UNKNOWN", version := [],
            name := ascii "Unknown Preset", parameters := [],
            rawData := some (List.replicate 10 255) } ∧
    parseData [] = .error .emptyInput :=
  parse_unrecognized (List.replicate 10 255) (by decide) (by decide) (by decide)

/-! ## Claim C9: name sentinel at construction -/

/-- C9 (amended): `PresetData` construction replaces an empty name with the
sentinel "Unnamed Preset" and otherwise keeps the name unchanged, so the name
is never the empty string — but a whitespace-only (blank) name is kept as-is
(see the counterexample). -/
theorem presetData_name_never_empty (f v n : List Nat)
    (ps : List (List Nat × Val)) (raw : Option (List Nat)) :
    (mkPresetData f v n ps raw).name ≠ [] ∧
    (n = [] → (mkPresetData f v n ps raw).name = ascii "Unnamed Preset") ∧
    (n ≠ [] → (mkPresetData f v n ps raw).name = n) := by
  by_cases h : n = []
  · exact ⟨by simp only [mkPresetData, if_pos h]; decide,
      fun _ => by simp only [mkPresetData, if_pos h],
      fun hn => absurd h hn⟩
  · exact ⟨by simp [mkPresetData, h], fun hc => absurd hc h,
      fun _ => by simp [mkPresetData, h]⟩

/-- Witness for the name-normalization theorem at concrete names. -/
theorem presetData_name_never_empty_witness :
    (mkPresetData (ascii "GP5") [] [] [] none).name = ascii "Unnamed Preset" ∧
    (mkPresetData (ascii "GP5") [] [65] [] none).name = [65] :=
  ⟨(presetData_name_never_empty (ascii "GP5") [] [] [] none).2.1 rfl,
   (presetData_name_never_empty (ascii "GP5") [] [65] [] none).2.2 (by decide)⟩

/-- C9 counterexample: a name consisting of a single space survives
construction unchanged — a blank (whitespace-only) name is not normalized, so
the constructed model's name can be blank. -/
theorem blank_name_survives_construction :
    (mkPresetData (ascii "GP5") [] [32] [] none).name = [32] ∧
    pyStrip ((mkPresetData (ascii "GP5") [] [32] [] none).name) = [] := by
  exact ⟨rfl, rfl⟩

/-! ## Claim C10: writer output layout -/

/-- C10: the serialized GP50 buffer is exactly 52 bytes — the 4-byte "GP50"
signature, then 16 bytes of version, then 32 bytes of name — and the parameter
dictionary contributes no bytes, so presets differing only in parameters
serialize identically. -/
theorem writeGp50_layout (p q : GP50Preset)
    (hname : p.name = q.name) (hver : p.version = q.version) :
    (writeGp50 p).length = 52 ∧ (writeGp50 p).take 4 = ascii "GP50" ∧
    writeGp50 p = writeGp50 q := by
  refine ⟨?_, ?_, ?_⟩
  · simp only [writeGp50, List.length_append, writeFixedString_length]
    rfl
  · rw [writeGp50, List.append_assoc]
    exact List.take_left' rfl
  · rw [writeGp50, writeGp50, hname, hver]

/-- Witness: two concrete presets differing only in their parameters. -/
theorem writeGp50_layout_witness :
    (writeGp50 (mkGP50 (ascii "A") (ascii "1.0")
      [(ascii "input_gain", Val.vnum 1)])).length = 52 ∧
    (writeGp50 (mkGP50 (ascii "A") (ascii "1.0")
      [(ascii "input_gain", Val.vnum 1)])).take 4 = ascii "GP50" ∧
    writeGp50 (mkGP50 (ascii "A") (ascii "1.0") [(ascii "input_gain", Val.vnum 1)]) =
      writeGp50 (mkGP50 (ascii "A") (ascii "1.0") [(ascii "output_level", Val.vnum 93)]) :=
  writeGp50_layout _ _ rfl rfl

/-! ## Claim C8: diff symmetry and similarity convention -/

theorem byteDifferences_nil_left (b : List Nat) : byteDifferences [] b = 0 := by
  simp [byteDifferences]

theorem byteDifferences_nil_right (a : List Nat) : byteDifferences a [] = 0 := by
  simp [byteDifferences]

theorem byteDifferences_cons (x y : Nat) (xs ys : List Nat) :
    byteDifferences (x :: xs) (y :: ys) =
      (if x = y then 0 else 1) + byteDifferences xs ys := by
  by_cases h : x = y <;>
    simp [byteDifferences, List.zip_cons_cons, List.filter_cons, h, Nat.add_comm]

theorem byteDifferences_comm (a b : List Nat) :
    byteDifferences a b = byteDifferences b a := by
  induction a generalizing b with
  | nil => rw [byteDifferences_nil_left, byteDifferences_nil_right]
  | cons x xs ih =>
    cases b with
    | nil => rw [byteDifferences_nil_left, byteDifferences_nil_right]
    | cons y ys =>
      rw [byteDifferences_cons, byteDifferences_cons, ih ys]
      congr 1
      by_cases h : x = y
      · simp [h]
      · have h2 : ¬ (y = x) := fun hc => h hc.symm
        simp [h, h2]

/-- C8: the byte-difference count and the similarity percentage are symmetric
in the two buffers; two empty buffers report 0 percent (never divide by zero);
and the similarity satisfies `similarity * max(lenA, lenB) =
(max(lenA, lenB) - differences) * 100`, the claim's formula cleared of its
denominator. -/
theorem compare_symmetric (a b : List Nat) :
    byteDifferences a b = byteDifferences b a ∧
    similarityPercentage a b = similarityPercentage b a ∧
    similarityPercentage [] [] = 0 ∧
    similarityPercentage a b * (max a.length b.length : ℚ) =
      ((max a.length b.length : ℚ) - byteDifferences a b) * 100 := by
  refine ⟨byteDifferences_comm a b, ?_, by simp [similarityPercentage], ?_⟩
  · simp [similarityPercentage, byteDifferences_comm a b, Nat.max_comm]
  · by_cases h : max a.length b.length = 0
    · have ha : a = [] := List.length_eq_zero.mp (by omega)
      have hb : b = [] := List.length_eq_zero.mp (by omega)
      subst ha hb
      simp [similarityPercentage, byteDifferences]
    · have hpos : 0 < max a.length b.length := Nat.pos_of_ne_zero h
      have hq : ((max a.length b.length : ℚ)) ≠ 0 := by
        exact_mod_cast h
      rw [similarityPercentage, if_pos hpos]
      field_simp

/-! ## Claim C2: header-size guess -/

theorem abs_sub_scale_iff (x y : ℚ) :
    ((1 : ℚ) / 5 < |x - y|) ↔ ((20 : ℚ) < |x * 100 - y * 100|) := by
  rw [show x * 100 - y * 100 = (x - y) * 100 by ring, abs_mul,
    show |(100 : ℚ)| = 100 by norm_num]
  constructor <;> intro h <;> nlinarith [abs_nonneg (x - y)]

theorem headerCandidate_eq_spec (data : List Nat) (s : Nat) (hs : 0 < s) :
    headerCandidateQualifies data s = specHeaderQualifies data s := by
  by_cases hbig : data.length > s + 64
  · have hlen : data.length > s := by omega
    have h1 : (data.take s).isEmpty = false := by
      rw [Bool.eq_false_iff]
      intro hemp
      have hnil : data.take s = [] := List.isEmpty_iff.mp hemp
      have hlen1 := congrArg List.length hnil
      rw [List.length_take] at hlen1
      simp only [List.length_nil] at hlen1
      omega
    have h2 : ((data.drop s).take 64).isEmpty = false := by
      rw [Bool.eq_false_iff]
      intro hemp
      have hnil : (data.drop s).take 64 = [] := List.isEmpty_iff.mp hemp
      have hlen2 := congrArg List.length hnil
      rw [List.length_take, List.length_drop] at hlen2
      simp only [List.length_nil] at hlen2
      omega
    rw [headerCandidateQualifies, specHeaderQualifies, if_pos hbig,
      sectionsDiffer, h1, h2]
    simp only [Bool.or_self, Bool.false_eq_true, if_false]
    rw [decide_eq_true hlen, Bool.true_and, decide_eq_decide]
    rw [nullPercent, nullPercent]
    constructor
    · exact fun h => ⟨hbig, (abs_sub_scale_iff _ _).mp h⟩
    · exact fun h => (abs_sub_scale_iff _ _).mpr h.2
  · rw [headerCandidateQualifies, specHeaderQualifies, if_neg hbig]
    simp [hbig]

theorem findHeaderGuess_eq_find (data : List Nat) (sizes : List Nat)
    (h : ∀ s ∈ sizes, headerCandidateQualifies data s = specHeaderQualifies data s) :
    findHeaderGuess data sizes = (sizes.find? (specHeaderQualifies data)).getD 0 := by
  induction sizes with
  | nil => rfl
  | cons a rest ih =>
    have ha := h a (List.mem_cons_self a rest)
    rw [findHeaderGuess, ha]
    cases hq : specHeaderQualifies data a
    · rw [if_neg (by simp [hq]), List.find?_cons_of_neg _ (by simp [hq])]
      exact ih (fun s hs => h s (List.mem_cons_of_mem a hs))
    · rw [if_pos (by simp [hq]), List.find?_cons_of_pos _ (by simp [hq])]
      rfl

theorem sectionsDiffer_replicate_zero (m k : Nat) :
    sectionsDiffer (List.replicate m 0) (List.replicate k 0) = false := by
  cases m with
  | zero => simp [sectionsDiffer]
  | succ m' =>
    cases k with
    | zero => simp [sectionsDiffer]
    | succ k' =>
      have h1 : (List.replicate (m' + 1) (0 : Nat)).isEmpty = false := by
        simp [List.replicate_succ]
      have h2 : (List.replicate (k' + 1) (0 : Nat)).isEmpty = false := by
        simp [List.replicate_succ]
      have hc1 : (countNull (List.replicate (m' + 1) 0) : ℚ) /
          (List.replicate (m' + 1) (0 : Nat)).length = 1 := by
        rw [countNull, List.count_replicate_self, List.length_replicate]
        exact div_self (by exact_mod_cast Nat.succ_ne_zero m')
      have hc2 : (countNull (List.replicate (k' + 1) 0) : ℚ) /
          (List.replicate (k' + 1) (0 : Nat)).length = 1 := by
        rw [countNull, List.count_replicate_self, List.length_replicate]
        exact div_self (by exact_mod_cast Nat.succ_ne_zero k')
      rw [sectionsDiffer, h1, h2]
      simp only [Bool.or_self, Bool.false_eq_true, if_false, hc1, hc2]
      norm_num

theorem headerCandidate_zero_buffer (s : Nat) (h1 : s ≤ 600) (h2 : s + 64 ≤ 600) :
    headerCandidateQualifies (List.replicate 600 0 ++ List.replicate 64 255) s = false := by
  have htake : (List.replicate 600 (0 : Nat) ++ List.replicate 64 255).take s =
      List.replicate s 0 := by
    rw [List.take_append_of_le_length (by rw [List.length_replicate]; exact h1),
      List.take_replicate, Nat.min_eq_left h1]
  have hdrop : ((List.replicate 600 (0 : Nat) ++ List.replicate 64 255).drop s).take 64 =
      List.replicate 64 0 := by
    rw [List.drop_append_of_le_length (by rw [List.length_replicate]; exact h1),
      List.drop_replicate]
    rw [List.take_append_of_le_length (by rw [List.length_replicate]; omega),
      List.take_replicate]
    congr 1
    omega
  rw [headerCandidateQualifies, htake, hdrop, sectionsDiffer_replicate_zero,
    ite_self, Bool.and_false]

theorem headerGuess_zero_buffer :
    headerGuess (List.replicate 600 0 ++ List.replicate 64 255) = 0 := by
  have hq64 := headerCandidate_zero_buffer 64 (by norm_num) (by norm_num)
  have hq128 := headerCandidate_zero_buffer 128 (by norm_num) (by norm_num)
  have hq256 := headerCandidate_zero_buffer 256 (by norm_num) (by norm_num)
  have hq512 := headerCandidate_zero_buffer 512 (by norm_num) (by norm_num)
  rw [headerGuess, commonHeaderSizes]
  rw [findHeaderGuess, hq64, if_neg Bool.false_ne_true]
  rw [findHeaderGuess, hq128, if_neg Bool.false_ne_true]
  rw [findHeaderGuess, hq256, if_neg Bool.false_ne_true]
  rw [findHeaderGuess, hq512, if_neg Bool.false_ne_true]
  rfl

/-- C2 (amended): the header-size guess is the first candidate in ascending
order {64, 128, 256, 512} such that the buffer is longer than candidate+64 and
the null-byte percentages of the first `candidate` bytes and of the following
64 bytes differ by more than 20 points, and 0 if no candidate qualifies; on
the buffer of 600 zero bytes followed by 64 non-zero bytes the guess is 0 (not
64): every 64-byte window following a candidate still lies in the zero
region. -/
theorem headerGuess_first_qualifying :
    (∀ data : List Nat,
      headerGuess data = (commonHeaderSizes.find? (specHeaderQualifies data)).getD 0) ∧
    headerGuess (List.replicate 600 0 ++ List.replicate 64 255) = 0 := by
  refine ⟨fun data => ?_, headerGuess_zero_buffer⟩
  rw [headerGuess]
  refine findHeaderGuess_eq_find data commonHeaderSizes (fun s hs => ?_)
  have hcases : s = 64 ∨ s = 128 ∨ s = 256 ∨ s = 512 := by
    simpa [commonHeaderSizes] using hs
  have hpos : 0 < s := by rcases hcases with rfl | rfl | rfl | rfl <;> norm_num
  exact headerCandidate_eq_spec data s hpos

/-- C2 counterexample: the spec's example buffer — 600 zero bytes followed by
64 uniformly non-zero bytes — does not yield a header-size guess of 64. -/
theorem headerGuess_example_not_64 :
    headerGuess (List.replicate 600 0 ++ List.replicate 64 255) ≠ 64 := by
  rw [headerGuess_zero_buffer]
  decide

/-! ## Claims C5 and C6: conversion effect filtering and compatibility -/

theorem dictGet_append_singleton {β : Type} (l : List (List Nat × β))
    (key : List Nat) (v : β) (h : ∀ kv ∈ l, kv.1 ≠ key) :
    dictGet (l ++ [(key, v)]) key = some v := by
  induction l with
  | nil => simp [dictGet]
  | cons a rest ih =>
    rw [List.cons_append, dictGet, if_neg (h a (List.mem_cons_self a rest))]
    exact ih (fun kv hkv => h kv (List.mem_cons_of_mem a hkv))

theorem convertMappedParams_keys (p : GP5Preset) :
    ∀ kv ∈ convertMappedParams p,
      kv.1 = ascii "input_gain" ∨ kv.1 = ascii "output_level" := by
  rw [convertMappedParams, parameterMapping]
  rcases hig : dictGet p.parameters (ascii "input_gain") with _ | v1 <;>
    rcases hol : dictGet p.parameters (ascii "output_level") with _ | v2 <;>
      simp [hig, hol]

theorem append_singleton_not_isEmpty {β : Type} (l : List β) (x : β) :
    (l ++ [x]).isEmpty = false := by
  cases l <;> rfl

theorem filterEffects_kept (items kept : List Val)
    (h : filterEffects items = some kept) :
    ∀ e ∈ kept, keepEffect? e = some true := by
  induction items generalizing kept with
  | nil =>
    have : kept = [] := (Option.some.inj h).symm
    subst this
    intro e he
    exact absurd he (List.not_mem_nil e)
  | cons a rest ih =>
    rw [filterEffects] at h
    rcases hka : keepEffect? a with _ | b <;> rw [hka] at h
    · exact absurd h (by simp)
    rcases htl : filterEffects rest with _ | tl <;> rw [htl] at h
    · exact absurd h (by simp)
    have hk : kept = if b then a :: tl else tl := (Option.some.inj h).symm
    subst hk
    intro e he
    cases b with
    | true =>
      rcases List.mem_cons.mp (by simpa using he) with rfl | hm
      · exact hka
      · exact ih tl htl e hm
    | false => exact ih tl htl e (by simpa using he)

theorem filterEffects_complete (items kept : List Val)
    (h : filterEffects items = some kept) :
    ∀ e ∈ items, keepEffect? e = some true → e ∈ kept := by
  induction items generalizing kept with
  | nil =>
    intro e he
    exact absurd he (List.not_mem_nil e)
  | cons a rest ih =>
    rw [filterEffects] at h
    rcases hka : keepEffect? a with _ | b <;> rw [hka] at h
    · exact absurd h (by simp)
    rcases htl : filterEffects rest with _ | tl <;> rw [htl] at h
    · exact absurd h (by simp)
    have hk : kept = if b then a :: tl else tl := (Option.some.inj h).symm
    subst hk
    intro e he hkeep
    rcases List.mem_cons.mp he with rfl | hm
    · have hb : b = true := Option.some.inj (hka.symm.trans hkeep)
      subst hb
      simp
    · have := ih tl htl e hm hkeep
      cases b <;> simp [this]

/-- C5 (amended): whenever the effect-chain filter completes — the chain
iterates and every dict effect carries a hashable `type` value — `convert`
succeeds and retains a chain item exactly when its type is a key of the
compatibility map, dropping hashable unsupported types without throwing; a
list- or dict-valued type instead raises TypeError (see the counterexample).
On the spec's example (overdrive plus `unknown_fx`) the target chain holds
only the overdrive effect and `check_compatibility` reports exactly one
warning whose text names `unknown_fx`. -/
theorem convert_retains_supported :
    (∀ (p : GP5Preset) (items kept : List Val),
      chainItems p.parameters = some items → filterEffects items = some kept →
      ∃ q, convert p = some q ∧
        dictGet q.parameters (ascii "effects_chain") = some (.vlist kept) ∧
        ∀ e ∈ items, (e ∈ kept ↔ keepEffect? e = some true)) ∧
    convert (mkGP5 (ascii "My Preset") (ascii "1.0")
      [(ascii "effects_chain", .vlist
        [.vdict [(ascii "type", .vstr (ascii "overdrive"))],
         .vdict [(ascii "type", .vstr (ascii "unknown_fx"))]])]) =
      some (mkGP50 (ascii "My Preset") (ascii "1.0")
        [(ascii "effects_chain", .vlist
          [.vdict [(ascii "type", .vstr (ascii "overdrive"))]])]) ∧
    checkCompatibility (mkGP5 (ascii "My Preset") (ascii "1.0")
      [(ascii "effects_chain", .vlist
        [.vdict [(ascii "type", .vstr (ascii "overdrive"))],
         .vdict [(ascii "type", .vstr (ascii "unknown_fx"))]])]) =
      some (false, [ascii "Effect " ++ [39] ++ ascii "unknown_fx" ++ [39] ++
        ascii " may not be supported in GP-50"]) ∧
    ∃ l r, ascii "Effect " ++ [39] ++ ascii "unknown_fx" ++ [39] ++
        ascii " may not be supported in GP-50" = l ++ ascii "unknown_fx" ++ r := by
  refine ⟨?_, rfl, rfl, ⟨ascii "Effect " ++ [39], [39] ++
    ascii " may not be supported in GP-50", by simp⟩⟩
  intro p items kept hitems hkept
  refine ⟨mkGP50 p.name (ascii "1.0") (convertMappedParams p ++
    [(ascii "effects_chain", .vlist kept)]), ?_, ?_, ?_⟩
  · simp only [convert, hitems, hkept]
  · rw [mkGP50]
    simp only [append_singleton_not_isEmpty, Bool.false_eq_true, if_false]
    refine dictGet_append_singleton _ _ _ (fun kv hkv => ?_)
    rcases convertMappedParams_keys p kv hkv with h | h <;> rw [h] <;> decide
  · intro e he
    exact ⟨fun hk => filterEffects_kept items kept hkept e hk,
      fun hk => filterEffects_complete items kept hkept e he hk⟩

/-- Witness for the universally quantified part of the conversion theorem. -/
theorem convert_retains_supported_witness :
    ∃ q, convert (mkGP5 (ascii "W") (ascii "1.0")
        [(ascii "effects_chain", .vlist
          [.vdict [(ascii "type", .vstr (ascii "delay"))],
           .vdict [(ascii "type", .vstr (ascii "mystery"))]])]) = some q ∧
      dictGet q.parameters (ascii "effects_chain") =
        some (.vlist [.vdict [(ascii "type", .vstr (ascii "delay"))]]) ∧
      ∀ e ∈ [Val.vdict [(ascii "type", .vstr (ascii "delay"))],
             Val.vdict [(ascii "type", .vstr (ascii "mystery"))]],
        (e ∈ [Val.vdict [(ascii "type", .vstr (ascii "delay"))]] ↔
          keepEffect? e = some true) :=
  convert_retains_supported.1 _ _ _ rfl rfl

/-- C5 counterexample: a chain containing one dict effect whose `type` value
is a list (unhashable) makes `convert` raise TypeError (modelled `none`) at
the membership test instead of dropping the unsupported effect — so
"unsupported effect types are dropped from the output chain without throwing"
fails. -/
theorem convert_raises_on_unhashable_type :
    chainItems (mkGP5 (ascii "Bad") (ascii "1.0")
      [(ascii "effects_chain", .vlist
        [.vdict [(ascii "type", .vlist [])]])]).parameters =
      some [.vdict [(ascii "type", .vlist [])]] ∧
    convert (mkGP5 (ascii "Bad") (ascii "1.0")
      [(ascii "effects_chain", .vlist
        [.vdict [(ascii "type", .vlist [])]])]) = none :=
  ⟨rfl, rfl⟩

theorem checkCompatLoop_spec (items : List Val) (b : Bool) (ws : List (List Nat))
    (h : checkCompatLoop items = some (b, ws)) :
    (b = true ↔ ws = []) ∧ ws.length = (items.filter hasCompatWarning).length := by
  induction items generalizing b ws with
  | nil =>
    have hb : (true, ([] : List (List Nat))) = (b, ws) := Option.some.inj h
    have hb1 : b = true := ((Prod.mk.injEq _ _ _ _).mp hb).1.symm
    have hb2 : ws = [] := ((Prod.mk.injEq _ _ _ _).mp hb).2.symm
    subst hb1 hb2
    simp
  | cons a rest ih =>
    rw [checkCompatLoop] at h
    rcases hw : compatWarning? a with _ | w <;> rw [hw] at h
    · exact absurd h (by simp)
    rcases hrest : checkCompatLoop rest with _ | p2 <;> rw [hrest] at h
    · exact absurd h (by simp)
    obtain ⟨b2, ws2⟩ := p2
    have ihs := ih b2 ws2 hrest
    cases w with
    | none =>
      have hp : (b2, ws2) = (b, ws) := Option.some.inj h
      have h1 : b = b2 := ((Prod.mk.injEq _ _ _ _).mp hp).1.symm
      have h2 : ws = ws2 := ((Prod.mk.injEq _ _ _ _).mp hp).2.symm
      subst h1 h2
      have hno : hasCompatWarning a = false := by
        rw [hasCompatWarning, hw]
      rw [List.filter_cons, hno]
      simpa using ihs
    | some msg =>
      have hp : (false, msg :: ws2) = (b, ws) := Option.some.inj h
      have h1 : b = false := ((Prod.mk.injEq _ _ _ _).mp hp).1.symm
      have h2 : ws = msg :: ws2 := ((Prod.mk.injEq _ _ _ _).mp hp).2.symm
      subst h1 h2
      have hyes : hasCompatWarning a = true := by
        rw [hasCompatWarning, hw]
      rw [List.filter_cons, hyes]
      refine ⟨by simp, ?_⟩
      simpa using ihs.2

/-- C6 (amended): whenever `check_compatibility` returns — the chain iterates
and every dict effect carries a hashable `type` value — the compatibility
flag is true exactly when the warning list is empty, and there is exactly one
warning per dict chain item with an unsupported effect type; the check reads
the preset without producing any modified model. A list- or dict-valued type
raises TypeError instead of returning (see the counterexample). -/
theorem checkCompatibility_flag (p : GP5Preset) (b : Bool) (ws : List (List Nat))
    (h : checkCompatibility p = some (b, ws)) :
    (b = true ↔ ws = []) ∧
    ws.length = (((chainItems p.parameters).getD []).filter hasCompatWarning).length := by
  rcases hitems : chainItems p.parameters with _ | items <;>
    rw [checkCompatibility, hitems] at h
  · exact absurd h (by simp)
  · simpa using checkCompatLoop_spec items b ws h

/-- Witness for the compatibility-flag theorem at a concrete preset with one
unsupported effect. -/
theorem checkCompatibility_flag_witness :
    ((false = true) ↔
      ([ascii "Effect " ++ [39] ++ ascii "fogbank" ++ [39] ++
        ascii " may not be supported in GP-50"] = ([] : List (List Nat)))) ∧
    [ascii "Effect " ++ [39] ++ ascii "fogbank" ++ [39] ++
        ascii " may not be supported in GP-50"].length =
      (((chainItems (mkGP5 (ascii "W2") (ascii "1.0")
        [(ascii "effects_chain", .vlist
          [.vdict [(ascii "type", .vstr (ascii "fogbank"))]])]).parameters).getD []).filter
        hasCompatWarning).length :=
  checkCompatibility_flag _ false _ rfl

/-- C6 counterexample: on a source model with one dict effect whose `type`
value is a list, `check_compatibility` raises TypeError (modelled `none`)
rather than returning a flag and warnings — refuting "for every source model,
checkCompatibility returns ...". -/
theorem checkCompatibility_raises_on_unhashable_type :
    checkCompatibility (mkGP5 (ascii "Bad2") (ascii "1.0")
      [(ascii "effects_chain", .vlist
        [.vdict [(ascii "type", .vdict [])]])]) = none := rfl

/-! ## Claim C7: exhaustive violation collection -/

theorem gp5RangeErrors_out (params : List (List Nat × Val)) (key msgPre : List Nat)
    (n : Int) (hget : dictGet params key = some (.vnum n)) (hout : n < 0 ∨ 100 < n) :
    gp5RangeErrors params key msgPre = some [msgPre ++ intAscii n] := by
  have hdec : decide (0 ≤ n ∧ n ≤ 100) = false := decide_eq_false (by omega)
  rw [gp5RangeErrors, hget]
  simp only [inRange0To100, hdec, Bool.false_eq_true, if_false]
  rfl

theorem effectBoolErrors_mem (effect : List (List Nat × Val)) (param : List Nat) (v : Val)
    (hp : param = ascii "enabled" ∨ param = ascii "bypass")
    (hget : dictGet effect param = some v) (hnb : ∀ bb : Bool, v ≠ .vbool bb) :
    msgMustBeBool param ∈ effectBoolErrors effect := by
  refine List.mem_filterMap.mpr ⟨param, ?_, ?_⟩
  · rcases hp with rfl | rfl <;> simp
  · rw [hget]
    cases v with
    | vbool bb => exact absurd rfl (hnb bb)
    | vnum n => rfl
    | vstr s => rfl
    | vnone => rfl
    | vlist xs => rfl
    | vdict d => rfl

theorem effectNumericErrors_mem (effect : List (List Nat × Val)) (k : List Nat)
    (n lo hi : Int) (hmem : (k, Val.vnum n) ∈ effect)
    (h1 : k ≠ ascii "type") (h2 : k ≠ ascii "enabled") (h3 : k ≠ ascii "bypass")
    (hrange : dictGet validatorRanges k = some (lo, hi)) (hout : n < lo ∨ hi < n) :
    (validateParameterRange k (.vnum n)).2 ∈ effectNumericErrors effect := by
  refine List.mem_filterMap.mpr ⟨(k, Val.vnum n), hmem, ?_⟩
  rw [if_neg (by tauto)]
  simp only [isNumericVal, if_true]
  have hcond : (decide (numericOf (Val.vnum n) < lo) || decide (hi < numericOf (Val.vnum n))) = true := by
    rcases hout with h | h <;> simp [numericOf, h]
  have hval : validateParameterRange k (.vnum n) =
      (false, ascii "Parameter " ++ [39] ++ k ++ [39] ++ ascii " must be between " ++
        intAscii lo ++ ascii " and " ++ intAscii hi ++ ascii ", got " ++ pyStrOf (.vnum n)) := by
    rw [validateParameterRange, hrange]
    simp only [isNumericVal, Bool.not_true, Bool.false_eq_true, if_false, hcond, if_true]
  rw [hval]

theorem gp5Validate_some (p : GP5Preset) (b : Bool) (errs : List (List Nat))
    (h : gp5Validate p = some (b, errs)) :
    ∃ gainErrs levelErrs,
      gp5RangeErrors p.parameters (ascii "input_gain")
        (ascii "Input gain must be 0-100, got ") = some gainErrs ∧
      gp5RangeErrors p.parameters (ascii "output_level")
        (ascii "Output level must be 0-100, got ") = some levelErrs ∧
      errs = (if p.name = [] ∨ pyStrip p.name = []
              then [ascii "Preset name cannot be empty"] else []) ++
        gainErrs ++ levelErrs ++
        (match (dictGet p.parameters (ascii "effects_chain")).getD (.vlist []) with
         | .vlist _ => []
         | _ => [ascii "Effects chain must be a list"]) := by
  rw [gp5Validate] at h
  rcases hg : gp5RangeErrors p.parameters (ascii "input_gain")
      (ascii "Input gain must be 0-100, got ") with _ | gainErrs <;>
    rw [hg] at h
  · exact absurd h (by simp)
  rcases hl : gp5RangeErrors p.parameters (ascii "output_level")
      (ascii "Output level must be 0-100, got ") with _ | levelErrs <;>
    rw [hl] at h
  · exact absurd h (by simp)
  refine ⟨gainErrs, levelErrs, rfl, rfl, ?_⟩
  have h2 := Option.some.inj h
  exact (congrArg Prod.snd h2).symm

/-- C7 (amended): preset-level validation (`GP5Preset.validate`) collects every
violation — name, input-gain, output-level and effects-chain-shape — without
short-circuiting, and whenever `validate_effect` returns, it collects every
unknown-type, boolean-field and numeric-range violation for any effect that
has a `type` field. Only an effect missing its `type` field returns early with
that single error (see the counterexample), and a list- or dict-valued `type`
raises TypeError at the set membership test before anything is collected. -/
theorem validation_collects_all :
    (∀ (p : GP5Preset) (b : Bool) (errs : List (List Nat)),
      gp5Validate p = some (b, errs) →
      ((p.name = [] ∨ pyStrip p.name = []) →
        ascii "Preset name cannot be empty" ∈ errs) ∧
      (∀ n : Int, dictGet p.parameters (ascii "input_gain") = some (.vnum n) →
        (n < 0 ∨ 100 < n) →
        ascii "Input gain must be 0-100, got " ++ intAscii n ∈ errs) ∧
      (∀ n : Int, dictGet p.parameters (ascii "output_level") = some (.vnum n) →
        (n < 0 ∨ 100 < n) →
        ascii "Output level must be 0-100, got " ++ intAscii n ∈ errs) ∧
      (∀ v : Val, dictGet p.parameters (ascii "effects_chain") = some v →
        (∀ xs, v ≠ .vlist xs) → ascii "Effects chain must be a list" ∈ errs)) ∧
    (∀ (effect : List (List Nat × Val)) (tv : Val) (res : Bool × List (List Nat)),
      dictGet effect (ascii "type") = some tv → validateEffect effect = some res →
      (∀ s : List Nat, tv = .vstr s → validEffectTypes.any (fun t => t = s) = false →
        msgUnknownType tv ∈ res.2) ∧
      (∀ (param : List Nat) (v : Val),
        (param = ascii "enabled" ∨ param = ascii "bypass") →
        dictGet effect param = some v → (∀ bb : Bool, v ≠ .vbool bb) →
        msgMustBeBool param ∈ res.2) ∧
      (∀ (k : List Nat) (n lo hi : Int), (k, Val.vnum n) ∈ effect →
        k ≠ ascii "type" → k ≠ ascii "enabled" → k ≠ ascii "bypass" →
        dictGet validatorRanges k = some (lo, hi) → (n < lo ∨ hi < n) →
        (validateParameterRange k (.vnum n)).2 ∈ res.2)) := by
  constructor
  · intro p b errs h
    obtain ⟨gainErrs, levelErrs, hg, hl, herrs⟩ := gp5Validate_some p b errs h
    subst herrs
    refine ⟨?_, ?_, ?_, ?_⟩
    · intro hname
      rw [if_pos hname]
      simp
    · intro n hget hout
      rw [gp5RangeErrors_out p.parameters _ _ n hget hout] at hg
      have : gainErrs = [ascii "Input gain must be 0-100, got " ++ intAscii n] :=
        (Option.some.inj hg).symm
      subst this
      simp [List.mem_append]
    · intro n hget hout
      rw [gp5RangeErrors_out p.parameters _ _ n hget hout] at hl
      have : levelErrs = [ascii "Output level must be 0-100, got " ++ intAscii n] :=
        (Option.some.inj hl).symm
      subst this
      simp [List.mem_append]
    · intro v hget hnl
      rw [hget]
      simp only [Option.getD_some]
      cases v with
      | vlist xs => exact absurd rfl (hnl xs)
      | vnum n => simp
      | vbool bb => simp
      | vstr s => simp
      | vnone => simp
      | vdict d => simp
  · intro effect tv res htv hres
    have herrs : res.2 =
        (match tv with
         | .vstr s => if validEffectTypes.any (fun t => t = s) then []
                      else [msgUnknownType tv]
         | _ => [msgUnknownType tv]) ++
        effectBoolErrors effect ++ effectNumericErrors effect := by
      cases tv with
      | vlist xs =>
        simp only [validateEffect, htv] at hres
        exact absurd hres (by simp)
      | vdict d =>
        simp only [validateEffect, htv] at hres
        exact absurd hres (by simp)
      | vstr s =>
        simp only [validateEffect, htv] at hres
        rw [← (Option.some.inj hres)]
      | vnum n =>
        simp only [validateEffect, htv] at hres
        rw [← (Option.some.inj hres)]
      | vbool bb =>
        simp only [validateEffect, htv] at hres
        rw [← (Option.some.inj hres)]
      | vnone =>
        simp only [validateEffect, htv] at hres
        rw [← (Option.some.inj hres)]
    refine ⟨?_, ?_, ?_⟩
    · intro s hts hany
      subst hts
      rw [herrs]
      simp [hany]
    · intro param v hp hget hnb
      rw [herrs]
      have := effectBoolErrors_mem effect param v hp hget hnb
      simp [List.mem_append, this]
    · intro k n lo hi hmem h1 h2 h3 hrange hout
      rw [herrs]
      have := effectNumericErrors_mem effect k n lo hi hmem h1 h2 h3 hrange hout
      simp [List.mem_append, this]

/-- Witness for the exhaustive-collection theorem: a preset violating the gain
range, and an effect (with a `type` field) violating the boolean-field rule. -/
theorem validation_collects_all_witness :
    ascii "Input gain must be 0-100, got " ++ intAscii 150 ∈
      [ascii "Preset name cannot be empty",
       ascii "Input gain must be 0-100, got " ++ intAscii 150,
       ascii "Output level must be 0-100, got " ++ intAscii 200,
       ascii "Effects chain must be a list"] ∧
    msgMustBeBool (ascii "enabled") ∈ [msgMustBeBool (ascii "enabled")] :=
  ⟨(validation_collects_all.1 (mkGP5 [] (ascii "1.0")
      [(ascii "input_gain", .vnum 150), (ascii "output_level", .vnum 200),
       (ascii "effects_chain", .vnum 3)]) false
      [ascii "Preset name cannot be empty",
       ascii "Input gain must be 0-100, got " ++ intAscii 150,
       ascii "Output level must be 0-100, got " ++ intAscii 200,
       ascii "Effects chain must be a list"] rfl).2.1 150 rfl (by omega),
   (validation_collects_all.2 [(ascii "type", .vstr (ascii "overdrive")),
      (ascii "enabled", .vnum 1)] (.vstr (ascii "overdrive"))
      (false, [msgMustBeBool (ascii "enabled")]) rfl rfl).2.1
     (ascii "enabled") (.vnum 1) (Or.inl rfl) rfl (fun bb => by simp)⟩

/-- C7 counterexample: an effect dict missing the `type` field but also
carrying a non-boolean `enabled` value makes `validate_effect` return only the
missing-type error — the boolean-field violation present in the input is not
reported, so validation does short-circuit in this case. -/
theorem validateEffect_short_circuits :
    validateEffect [(ascii "enabled", Val.vnum 1)] = some (false, [msgMissingType]) ∧
    msgMustBeBool (ascii "enabled") ∉ [msgMissingType] := by
  exact ⟨rfl, by decide⟩
